import Mathlib

/-!
Verification development for the OHS Digital Microscope zone-action core.

The embedding follows the repository source:
* the zone click handler (the spec's `resolveAndDispatch`) from the
  simulation-view listener,
* `validateQuizData` from the quiz validation function,
* `editAdminZone` (the spec's `setAction`) from the admin zone editor,
* the quiz modal submit/option/close handlers (the spec's Quiz Session),
* `getLessonData` from `Code.js`.

A persisted zone record is a flat object with optional properties; `none`
models an absent property (JavaScript `delete` / `undefined`), so presence
checks (`!== undefined && !== null`) become `Option.isSome` and JavaScript
string truthiness becomes "present and non-empty".
-/

namespace Microscope

/-- Whitespace as trimmed by JavaScript `String.prototype.trim` (the
characters occurring in this data). -/
def jsWhitespace (c : Char) : Bool :=
  c = ' ' || c = '\t' || c = '\n' || c = '\r'

/-- JavaScript `s.trim()`: strip leading and trailing whitespace.  Modelled
character-wise so that it evaluates by kernel reduction. -/
def jsTrim (s : String) : String :=
  String.mk (((s.data.dropWhile jsWhitespace).reverse.dropWhile jsWhitespace).reverse)

/-- One quiz answer option: display text plus an optional rationale
(`none` models JSON `null` or an absent rationale). -/
structure Answer where
  text : String
  rationale : Option String
deriving DecidableEq, Repr

/-- A zone record as persisted: a flat optional-property object.  Shape
fields (`type`, `x`, `y`, ...) are irrelevant to the action model and are
omitted; every action-bearing property is kept.  `none` = property absent. -/
structure Zone where
  label : Option String := none
  actionType : Option String := none
  bannerText : Option String := none
  bannerPosition : Option String := none
  quizQuestion : Option String := none
  quizAnswers : Option (List Answer) := none
  quizCorrectIndex : Option Nat := none
  quizShowRationale : Option Bool := none
  targetView : Option Int := none
deriving DecidableEq, Repr

/-- JavaScript truthiness of an optional string property: present and
non-empty. -/
def strTruthy : Option String → Bool
  | some s => !(s == "")
  | none => false

/-- The banner guard of the click handler:
`zone.actionType === 'banner' && zone.bannerText`. -/
def bannerGuard (z : Zone) : Bool :=
  (z.actionType == some "banner") && strTruthy z.bannerText

/-- The quiz guard of the click handler:
`zone.actionType === 'quiz' && zone.quizQuestion`. -/
def quizGuard (z : Zone) : Bool :=
  (z.actionType == some "quiz") && strTruthy z.quizQuestion

/-- The targeted-navigation test of the click handler:
`zone.targetView !== undefined && zone.targetView !== null`
— a presence check, not a truthiness check. -/
def targetPresent (z : Zone) : Bool :=
  z.targetView.isSome

/-- The single observable effect of one zone click.  `nextView b` is the
sequential advancement `zoomToNextView()`; the flag records whether a
`console.error` was emitted first (invalid target view).  The handler never
throws: every zone and view count maps to exactly one constructor. -/
inductive ClickAction where
  | showBanner (text : String) (position : String)
  | showQuiz (z : Zone)
  | navigate (idx : Nat)
  | nextView (errorLogged : Bool)
deriving DecidableEq, Repr

/-- The zone click handler (the spec's `resolveAndDispatch`), embedded from
the simulation-view listener: banner check, then quiz check, then target
view presence with a bounds check, then sequential default. -/
def resolveAndDispatch (z : Zone) (viewCount : Nat) : ClickAction :=
  if bannerGuard z then
    .showBanner (z.bannerText.getD "")
      (if strTruthy z.bannerPosition then z.bannerPosition.getD "" else "bottom")
  else if quizGuard z then
    .showQuiz z
  else if targetPresent z then
    let targetIndex : Int := z.targetView.getD 0
    if 0 ≤ targetIndex ∧ targetIndex < (viewCount : Int) then
      .navigate targetIndex.toNat
    else
      .nextView true
  else
    .nextView false

/-- The four branches of the click handler, in source order. -/
inductive Branch where
  | banner
  | quiz
  | targeted
  | sequential
deriving DecidableEq, Repr

/-- Which branch of the handler produced a given dispatched action
(`nextView true` only arises inside the targeted branch; `nextView false`
only in the final `else`). -/
def branchOf : ClickAction → Branch
  | .showBanner _ _ => .banner
  | .showQuiz _ => .quiz
  | .navigate _ => .targeted
  | .nextView true => .targeted
  | .nextView false => .sequential

/-! ## Admin editor: quiz validation and `setAction` (the edit flow) -/

/-- The form data collected by the quiz configuration modal, phase 1.
`correctAnswer` is the `parseInt` of the correct-answer select, whose values
are the strings "0".."3", hence a natural number.  Blank or skipped answer
fields are the empty string. -/
structure QuizForm where
  quizQuestion : String
  answer1 : String
  answer2 : String
  answer3 : String
  answer4 : String
  correctAnswer : Nat
  showRationale : Bool
deriving DecidableEq, Repr

/-- The error kinds reported by quiz validation. -/
inductive ValidationError where
  | EmptyQuestion
  | TooFewAnswers
  | InvalidCorrectIndex
deriving DecidableEq, Repr

/-- The non-blank answers of the form, in slot order: embeds
`[answer1..answer4].filter(a => a && a.trim() !== '')` (for strings,
truthiness plus non-blank trim is exactly non-blank trim). -/
def suppliedAnswers (f : QuizForm) : List String :=
  [f.answer1, f.answer2, f.answer3, f.answer4].filter (fun a => jsTrim a ≠ "")

/-- `validateQuizData`, embedded from the source: blank question, then fewer
than 2 non-blank answers, then `correctIndex >= answers.length`.  It reads
only the form data and displays an error dialog; it writes nothing (pure). -/
def validateQuizData (f : QuizForm) : Option ValidationError :=
  if jsTrim f.quizQuestion = "" then some .EmptyQuestion
  else if (suppliedAnswers f).length < 2 then some .TooFewAnswers
  else if (suppliedAnswers f).length ≤ f.correctAnswer then some .InvalidCorrectIndex
  else none

/-- The `quizAnswers` array built at commit: the non-blank answer texts in
order, the correct answer keeping no rationale and each other answer taking
its phase-2 rationale (absent entries stay `none`). -/
def buildQuizAnswers (f : QuizForm) (rats : List (Option String)) : List Answer :=
  (suppliedAnswers f).mapIdx fun i t =>
    { text := t, rationale := if i = f.correctAnswer then none else rats.getD i none }

/-- Modelled from the spec: the commit step of `showQuizConfigModal`, whose
body is not in the sources (only its field descriptors and its validator
are).  Per §4.4: the quiz properties are written and every other kind's
properties deleted only when `validateQuizData` passes; on failure nothing
is written and the caller re-prompts. -/
def quizCommit (f : QuizForm) (rats : List (Option String)) (z : Zone) : Option Zone :=
  if validateQuizData f = none then
    some { z with
      actionType := some "quiz",
      quizQuestion := some f.quizQuestion,
      quizAnswers := some (buildQuizAnswers f rats),
      quizCorrectIndex := some f.correctAnswer,
      quizShowRationale := some f.showRationale,
      bannerText := none, bannerPosition := none, targetView := none }
  else none

/-- Modelled from the spec: the banner sub-modal commit (the editor source
shows only a placeholder for the existing banner logic).  Per §4.4: a
trivial non-empty check on the banner text, and the other kinds' properties
are deleted on commit. -/
def bannerCommit (text position : String) (z : Zone) : Option Zone :=
  if jsTrim text ≠ "" then
    some { z with
      actionType := some "banner",
      bannerText := some text,
      bannerPosition := some position,
      quizQuestion := none, quizAnswers := none, quizCorrectIndex := none,
      quizShowRationale := none, targetView := none }
  else none

/-- The targeted-navigation branch of `editAdminZone`, embedded from the
source: delete `actionType`, banner and quiz properties, set
`targetView = parseInt(selectedAction)` (the select values are image
indices, hence natural numbers). -/
def targetedCommit (idx : Nat) (z : Zone) : Zone :=
  { z with
    actionType := none, bannerText := none, bannerPosition := none,
    quizQuestion := none, quizAnswers := none, quizCorrectIndex := none,
    quizShowRationale := none, targetView := some (idx : Int) }

/-- The sequential-navigation branch of `editAdminZone`, embedded from the
source: delete all eight action properties. -/
def clearAction (z : Zone) : Zone :=
  { z with
    targetView := none, actionType := none, bannerText := none,
    bannerPosition := none, quizQuestion := none, quizAnswers := none,
    quizCorrectIndex := none, quizShowRationale := none }

/-- The collected fields for one action kind, as handed to the spec's
`setAction(zone, kind, fields)`. -/
inductive ActionFields where
  | nof
  | bannerf (text : String) (position : String)
  | quizf (form : QuizForm) (rats : List (Option String))
  | targetf (idx : Nat)
deriving DecidableEq, Repr

/-- The spec's `setAction`: the per-kind commit of the admin editor.
`none`/targeted branches are from the `editAdminZone` source; banner/quiz
commits are the spec-modelled `bannerCommit`/`quizCommit`.  Returns `some`
of the new record on success, `none` when validation rejects the fields. -/
def setAction (z : Zone) (f : ActionFields) : Option Zone :=
  match f with
  | .nof => some (clearAction z)
  | .bannerf text position => bannerCommit text position z
  | .quizf form rats => quizCommit form rats z
  | .targetf idx => some (targetedCommit idx z)

/-- The label update of `editAdminZone`, embedded from the source:
`const newLabel = values.label.trim(); if (newLabel !== '') { ...label =
newLabel } else { delete ...label }`. -/
def applyLabel (z : Zone) (rawLabel : String) : Zone :=
  if jsTrim rawLabel ≠ "" then { z with label := some (jsTrim rawLabel) }
  else { z with label := none }

/-- The admin's choice in the first edit modal, together with the result of
the kind-specific collection that follows it (`none` = the admin cancelled
that later collection). -/
inductive ActionChoice where
  | chooseNone
  | chooseBanner (collected : Option (String × String))
  | chooseQuiz (collected : Option (QuizForm × List (Option String)))
  | chooseTarget (idx : Nat)
deriving DecidableEq, Repr

/-- `editAdminZone`, embedded from the source: if the first (label +
action) modal is cancelled (`values === null`, here `none`) nothing
happens; otherwise the label is updated immediately, and then the chosen
action branch runs.  A failed or cancelled banner/quiz collection leaves
the action properties as they were — but the label write has already
happened. -/
def editAdminZone (z : Zone) (modalResult : Option (String × ActionChoice)) : Zone :=
  match modalResult with
  | none => z
  | some (lbl, choice) =>
    let z1 := applyLabel z lbl
    match choice with
    | .chooseNone => clearAction z1
    | .chooseTarget idx => targetedCommit idx z1
    | .chooseBanner none => z1
    | .chooseBanner (some (t, p)) => (bannerCommit t p z1).getD z1
    | .chooseQuiz none => z1
    | .chooseQuiz (some (form, rats)) => (quizCommit form rats z1).getD z1

/-! ## Quiz session (student modal) -/

/-- The transient state of one quiz modal: the checked radio (if any), the
`selectedIndex` captured at submit, whether feedback is shown (`answered`,
which also hides the submit button and disables the radio inputs), and
whether the modal was dismissed. -/
structure QuizSession where
  checked : Option Nat
  selectedIndex : Option Nat
  answered : Bool
  closed : Bool
deriving DecidableEq, Repr

/-- `showQuizModal` clears all previous state: fresh session, nothing
checked, nothing captured. -/
def startSession : QuizSession :=
  { checked := none, selectedIndex := none, answered := false, closed := false }

/-- A click on option div `i` (one exists per rendered answer).  Embedded
from the source: the div's click listener is attached once and never
removed; it sets the radio `checked` property (a programmatic write that
the `disabled` attribute does not block) and moves the `selected` class.
After dismissal the modal is hidden, so no clicks reach it. -/
def optionClick (s : QuizSession) (i : Nat) : QuizSession :=
  if s.closed then s else { s with checked := some i }

/-- The submit handler.  Embedded from the source: unreachable once
answered (the submit button is hidden) or closed; with nothing checked it
shows a notice and changes nothing; otherwise it captures `selectedIndex`
into a local constant and renders feedback. -/
def submitClick (s : QuizSession) : QuizSession :=
  if s.closed || s.answered then s
  else
    match s.checked with
    | none => s
    | some i => { s with selectedIndex := some i, answered := true }

/-- The continue-button handler: hides the modal.  The button is hidden
until feedback is shown, so it is unreachable before `answered`. -/
def closeClick (s : QuizSession) : QuizSession :=
  if s.closed || !s.answered then s else { s with closed := true }

/-- One UI event of a quiz session. -/
inductive QuizEvent where
  | option (i : Nat)
  | submit
  | close
deriving DecidableEq, Repr

/-- The session step function: dispatch one event. -/
def quizStep (s : QuizSession) : QuizEvent → QuizSession
  | .option i => optionClick s i
  | .submit => submitClick s
  | .close => closeClick s

/-- The feedback box rendered at submit, embedded from the source submit
handler: affirmative marker and empty rationale when correct; otherwise
negative marker, with the selected answer's rationale when
`quizShowRationale` holds and that rationale is truthy (non-null and
non-empty), else the generic fallback naming the correct answer's text. -/
structure Feedback where
  icon : String
  text : String
  rationale : String
deriving DecidableEq, Repr

/-- The feedback computation of the submit handler, as a function of the
zone's quiz data and the captured `selectedIndex`.  In the source the two
indexings `quizAnswers[selectedIndex]` / `quizAnswers[quizCorrectIndex]`
are always in range (one option div per answer; the committed
`quizCorrectIndex` is validated); `getD` agrees with them there. -/
def submitFeedback (answers : List Answer) (correctIndex : Nat)
    (showRationale : Bool) (selectedIndex : Nat) : Feedback :=
  if selectedIndex = correctIndex then
    { icon := "✓", text := "Correct!", rationale := "" }
  else if showRationale && strTruthy (answers.getD selectedIndex ⟨"", none⟩).rationale then
    { icon := "✗", text := "Incorrect",
      rationale := ((answers.getD selectedIndex ⟨"", none⟩).rationale).getD "" }
  else
    { icon := "✗", text := "Incorrect",
      rationale := "The correct answer is: " ++ (answers.getD correctIndex ⟨"", none⟩).text }

/-! ## Lesson loading (`getLessonData` in Code.js) -/

/-- What the persisted zones cell of one view holds, abstracting the
outcome of `JSON.parse` on the cell's string: blank/whitespace cell,
successful parse to an array of zones, successful parse to a non-array
value, or a parse exception. -/
inductive ZonesCell where
  | blank
  | parsesTo (zs : List Zone)
  | nonArray
  | parseFail
deriving DecidableEq, Repr

/-- One view object returned by `getLessonData`. -/
structure ViewObj where
  description : String
  imageUrl : String
  zones : List Zone
deriving DecidableEq, Repr

/-- The zones list extracted from one cell: the parsed array when the cell
parses to an array, and the empty list in every other case (blank cell,
non-array value, parse error — the source logs and continues). -/
def cellZones : ZonesCell → List Zone
  | .parsesTo zs => zs
  | _ => []

/-- `getLessonData`, embedded from Code.js, over the lesson row already
chunked into (description, url, zones-cell) triples: a view is included
exactly when its description and converted URL are truthy with non-blank
trims, its zones coming from `cellZones`.  The function is total: no cell
content makes it fail. -/
def getLessonData (row : List (String × String × ZonesCell)) : List ViewObj :=
  row.filterMap fun c =>
    if jsTrim c.1 ≠ "" ∧ jsTrim c.2.1 ≠ "" then
      some { description := c.1, imageUrl := c.2.1, zones := cellZones c.2.2 }
    else
      none

/-! ## Derived notions used by the statements -/

/-- The presence pattern of the eight action properties of a record, in the
order `actionType`, `bannerText`, `bannerPosition`, `quizQuestion`,
`quizAnswers`, `quizCorrectIndex`, `quizShowRationale`, `targetView`. -/
def actionPropsPresent (z : Zone) : List Bool :=
  [z.actionType.isSome, z.bannerText.isSome, z.bannerPosition.isSome,
   z.quizQuestion.isSome, z.quizAnswers.isSome, z.quizCorrectIndex.isSome,
   z.quizShowRationale.isSome, z.targetView.isSome]

/-- The presence pattern each action kind is supposed to leave behind:
exactly its own properties, every other kind's properties absent. -/
def kindMask : ActionFields → List Bool
  | .nof => [false, false, false, false, false, false, false, false]
  | .bannerf _ _ => [true, true, true, false, false, false, false, false]
  | .quizf _ _ => [true, false, false, true, true, true, true, false]
  | .targetf _ => [false, false, false, false, false, false, false, true]

/-- The quiz invariants of a committed record: whenever the quiz answer
list and correct index are both present, the index addresses an answer and
the list has between 2 and 4 entries. -/
def quizInv (z : Zone) : Prop :=
  ∀ ans c, z.quizAnswers = some ans → z.quizCorrectIndex = some c →
    c < ans.length ∧ 2 ≤ ans.length ∧ ans.length ≤ 4

/-! ## Concrete records used as witnesses -/

/-- The spec's precedence example: a record with both valid banner fields
and a target view. -/
def zoneBannerHi : Zone :=
  { actionType := some "banner", bannerText := some "Hi", targetView := some 2 }

/-- A zone whose target view is out of range for a 3-view lesson. -/
def zoneTargetFive : Zone := { targetView := some 5 }

/-- A zone navigating to view 0 (a falsy but present target index). -/
def zoneTargetZero : Zone := { targetView := some 0 }

/-- A committed quiz zone with a label, two answers, correct index 0. -/
def zoneQuizAB : Zone :=
  { label := some "old", actionType := some "quiz", quizQuestion := some "Q?",
    quizAnswers := some [⟨"A", none⟩, ⟨"B", some "wrong"⟩],
    quizCorrectIndex := some 0, quizShowRationale := some true }

/-- A record with no action properties. -/
def zoneEmpty : Zone := {}

/-- A valid quiz form: question, two answers, correct index 0. -/
def formOk : QuizForm :=
  { quizQuestion := "Q?", answer1 := "A", answer2 := "B", answer3 := "",
    answer4 := "", correctAnswer := 0, showRationale := true }

/-- The spec's Scenario E form: blank question, two answers, index 0. -/
def formEmptyQ : QuizForm := { formOk with quizQuestion := "" }

/-- Phase-2 rationales matching `formOk`. -/
def ratsOk : List (Option String) := [none, some "wrong"]

/-- The zone produced by committing `formOk` with `ratsOk` onto an empty
record. -/
def zoneCommitted : Zone := (setAction zoneEmpty (.quizf formOk ratsOk)).getD zoneEmpty

/-- A two-answer list with a rationale only on the wrong answer. -/
def ansAB : List Answer := [⟨"A", none⟩, ⟨"B", some "wrong"⟩]

/-! ## Theorems -/

/-- C1: a single click executes exactly one of the four branches of
`resolveAndDispatch`, chosen in the strict priority order Banner, Quiz,
Targeted, Default (`resolveAndDispatch` is a total function into single
actions, and `branchOf` names the branch that produced each action); in
particular a record satisfying the Banner guard that also carries a target
view dispatches the banner and never the Targeted branch. -/
theorem resolveAndDispatch_branch_priority (z : Zone) (vc : Nat) :
    (bannerGuard z = true → branchOf (resolveAndDispatch z vc) = .banner) ∧
    (bannerGuard z = false → quizGuard z = true →
      branchOf (resolveAndDispatch z vc) = .quiz) ∧
    (bannerGuard z = false → quizGuard z = false → targetPresent z = true →
      branchOf (resolveAndDispatch z vc) = .targeted) ∧
    (bannerGuard z = false → quizGuard z = false → targetPresent z = false →
      branchOf (resolveAndDispatch z vc) = .sequential) ∧
    (bannerGuard z = true → z.targetView.isSome = true →
      resolveAndDispatch z vc = .showBanner (z.bannerText.getD "")
        (if strTruthy z.bannerPosition then z.bannerPosition.getD "" else "bottom")) := by
  unfold resolveAndDispatch
  refine ⟨?_, ?_, ?_, ?_, ?_⟩
  · intro hb; simp [hb, branchOf]
  · intro hb hq; simp [hb, hq, branchOf]
  · intro hb hq ht
    simp only [hb, hq, ht, Bool.false_eq_true, if_false, if_true]
    by_cases hc : 0 ≤ z.targetView.getD 0 ∧ z.targetView.getD 0 < (vc : Int) <;>
      simp [hc, branchOf]
  · intro hb hq ht; simp [hb, hq, ht, branchOf]
  · intro hb _; simp [hb]

/-- Witness for C1 at the spec's example record
`value actionType:"banner", bannerText:"Hi", targetView:2`: the banner
branch fires; navigation does not. -/
theorem resolveAndDispatch_branch_priority_witness :
    bannerGuard zoneBannerHi = true ∧
    branchOf (resolveAndDispatch zoneBannerHi 3) = .banner ∧
    resolveAndDispatch zoneBannerHi 3 = .showBanner "Hi" "bottom" :=
  ⟨by decide,
   (resolveAndDispatch_branch_priority zoneBannerHi 3).1 (by decide),
   (resolveAndDispatch_branch_priority zoneBannerHi 3).2.2.2.2 (by decide) (by decide)⟩

/-- C7: a zone resolved as Targeted navigates to its view index exactly
when the index lies in `[0, viewCount)`; otherwise the click falls back to
sequential advancement with the error logged (`nextView true`), the same
effect as the Default branch — the handler returns an action in every
case, never throwing or surfacing an error dialog. -/
theorem targeted_branch_bounds (z : Zone) (vc : Nat) (t : Int)
    (hb : bannerGuard z = false) (hq : quizGuard z = false)
    (ht : z.targetView = some t) :
    ((0 ≤ t ∧ t < (vc : Int)) → resolveAndDispatch z vc = .navigate t.toNat) ∧
    (¬(0 ≤ t ∧ t < (vc : Int)) → resolveAndDispatch z vc = .nextView true) := by
  unfold resolveAndDispatch
  simp only [hb, hq, targetPresent, ht, Option.isSome_some, Option.getD_some,
    Bool.false_eq_true, if_false, if_true]
  constructor <;> intro h <;> simp [h]

/-- Witness for C7: `targetView 5` in a 3-view lesson falls back to
sequential advancement with the error logged, and `targetView 1` in the
same lesson navigates to view 1. -/
theorem targeted_branch_bounds_witness :
    resolveAndDispatch zoneTargetFive 3 = .nextView true ∧
    resolveAndDispatch { targetView := some 1 } 3 = .navigate 1 :=
  ⟨(targeted_branch_bounds zoneTargetFive 3 5 (by decide) (by decide) rfl).2 (by decide),
   (targeted_branch_bounds { targetView := some 1 } 3 1 (by decide) (by decide) rfl).1
     (by decide)⟩

/-- C10: a zone that fails the Banner and Quiz guards but carries
`targetView: 0` resolves to the Targeted branch — the handler tests
presence (`!== undefined && !== null`), not truthiness, so the falsy index
0 is not the sequential default — and, when the lesson has at least one
view, the click navigates to view 0. -/
theorem targetView_zero_is_targeted (z : Zone) (vc : Nat)
    (hb : bannerGuard z = false) (hq : quizGuard z = false)
    (ht : z.targetView = some 0) :
    branchOf (resolveAndDispatch z vc) = .targeted ∧
    (0 < vc → resolveAndDispatch z vc = .navigate 0) := by
  unfold resolveAndDispatch
  simp only [hb, hq, targetPresent, ht, Option.isSome_some, Option.getD_some,
    Bool.false_eq_true, if_false, if_true]
  constructor
  · split <;> simp [branchOf]
  · intro h
    have : (0 : Int) ≤ 0 ∧ (0 : Int) < (vc : Int) := by omega
    simp [this]

/-- Witness for C10: a zone whose only action property is `targetView: 0`,
clicked in a 3-view lesson, navigates to view 0. -/
theorem targetView_zero_is_targeted_witness :
    branchOf (resolveAndDispatch zoneTargetZero 3) = .targeted ∧
    resolveAndDispatch zoneTargetZero 3 = .navigate 0 :=
  ⟨(targetView_zero_is_targeted zoneTargetZero 3 (by decide) (by decide) rfl).1,
   (targetView_zero_is_targeted zoneTargetZero 3 (by decide) (by decide) rfl).2 (by decide)⟩

/-- C4: `validateQuizData` fails with `EmptyQuestion` exactly when the
question is blank; otherwise with `TooFewAnswers` exactly when fewer than 2
non-blank answers are supplied; otherwise with `InvalidCorrectIndex`
exactly when the selected correct-answer index does not address one of the
supplied non-blank answers; otherwise it succeeds.  A failing call writes
nothing: the validator is a pure function of the form, and the quiz commit
writes no record while validation fails. -/
theorem validateQuizData_characterization (f : QuizForm) :
    (validateQuizData f = some .EmptyQuestion ↔ jsTrim f.quizQuestion = "") ∧
    (validateQuizData f = some .TooFewAnswers ↔
      jsTrim f.quizQuestion ≠ "" ∧ (suppliedAnswers f).length < 2) ∧
    (validateQuizData f = some .InvalidCorrectIndex ↔
      jsTrim f.quizQuestion ≠ "" ∧ 2 ≤ (suppliedAnswers f).length ∧
        ¬f.correctAnswer < (suppliedAnswers f).length) ∧
    (validateQuizData f = none ↔
      jsTrim f.quizQuestion ≠ "" ∧ 2 ≤ (suppliedAnswers f).length ∧
        f.correctAnswer < (suppliedAnswers f).length) ∧
    (∀ rats z, validateQuizData f ≠ none → quizCommit f rats z = none) := by
  refine ⟨?_, ?_, ?_, ?_, ?_⟩
  · unfold validateQuizData; split_ifs <;> simp_all
  · unfold validateQuizData; split_ifs <;> simp_all
  · unfold validateQuizData; split_ifs <;> simp_all
  · unfold validateQuizData; split_ifs <;> simp_all
  · intro rats z h
    unfold quizCommit
    simp [h]

/-- Witness for C4 at the spec's Scenario E form (blank question, answers
"A" and "B", correct index 0): the validator fails with `EmptyQuestion`
and the commit writes nothing. -/
theorem validateQuizData_characterization_witness :
    validateQuizData formEmptyQ = some .EmptyQuestion ∧
    quizCommit formEmptyQ ratsOk zoneQuizAB = none :=
  ⟨(validateQuizData_characterization formEmptyQ).1.2 (by decide),
   (validateQuizData_characterization formEmptyQ).2.2.2.2 ratsOk zoneQuizAB (by decide)⟩

/-- C2: when `setAction` succeeds, the produced record carries exactly the
action properties belonging to the requested kind; every property of the
other kinds is absent (`none`, modelling `delete`), not merely falsy. -/
theorem setAction_exact_presence (z : Zone) (f : ActionFields) (z2 : Zone)
    (h : setAction z f = some z2) : actionPropsPresent z2 = kindMask f := by
  cases f with
  | nof =>
      simp only [setAction, Option.some.injEq] at h
      subst h; rfl
  | targetf idx =>
      simp only [setAction, Option.some.injEq] at h
      subst h; rfl
  | bannerf t p =>
      simp only [setAction, bannerCommit] at h
      split at h
      · simp only [Option.some.injEq] at h; subst h; rfl
      · exact absurd h (by simp)
  | quizf form rats =>
      simp only [setAction, quizCommit] at h
      split at h
      · simp only [Option.some.injEq] at h; subst h; rfl
      · exact absurd h (by simp)

/-- Witness for C2, the spec's Scenario D: switching a committed quiz zone
to targeted navigation leaves no quiz or banner key and exactly a
`targetView`. -/
theorem setAction_exact_presence_witness :
    setAction zoneQuizAB (.targetf 2) = some (targetedCommit 2 zoneQuizAB) ∧
    actionPropsPresent (targetedCommit 2 zoneQuizAB) = kindMask (.targetf 2) :=
  ⟨rfl, setAction_exact_presence zoneQuizAB (.targetf 2) _ rfl⟩

/-- C3 counterexample: an edit that keeps the quiz kind but cancels the
quiz configuration modal has already committed the label write of the
first modal, so the zone is NOT left completely unmodified, refuting the
claim as stated. -/
theorem editAdminZone_cancel_mutates_label :
    editAdminZone zoneQuizAB (some ("new", .chooseQuiz none)) ≠ zoneQuizAB ∧
    (editAdminZone zoneQuizAB (some ("new", .chooseQuiz none))).label = some "new" ∧
    zoneQuizAB.label = some "old" := by
  refine ⟨?_, by decide, rfl⟩
  decide

/-- C3 amended: cancelling the first (label/action) modal leaves the zone
completely unmodified; when the kind-specific validation fails or the
admin cancels a later collection phase, the result is exactly
`applyLabel z lbl` — the action properties are untouched and no commit
happens, but the label write of the first modal has already taken
effect. -/
theorem editAdminZone_abort_no_action_write (z : Zone) (lbl : String)
    (form : QuizForm) (rats : List (Option String)) (t p : String) :
    editAdminZone z none = z ∧
    editAdminZone z (some (lbl, .chooseQuiz none)) = applyLabel z lbl ∧
    (validateQuizData form ≠ none →
      editAdminZone z (some (lbl, .chooseQuiz (some (form, rats)))) = applyLabel z lbl) ∧
    editAdminZone z (some (lbl, .chooseBanner none)) = applyLabel z lbl ∧
    (jsTrim t = "" →
      editAdminZone z (some (lbl, .chooseBanner (some (t, p)))) = applyLabel z lbl) ∧
    ((applyLabel z lbl).actionType = z.actionType ∧
     (applyLabel z lbl).bannerText = z.bannerText ∧
     (applyLabel z lbl).bannerPosition = z.bannerPosition ∧
     (applyLabel z lbl).quizQuestion = z.quizQuestion ∧
     (applyLabel z lbl).quizAnswers = z.quizAnswers ∧
     (applyLabel z lbl).quizCorrectIndex = z.quizCorrectIndex ∧
     (applyLabel z lbl).quizShowRationale = z.quizShowRationale ∧
     (applyLabel z lbl).targetView = z.targetView) := by
  refine ⟨rfl, rfl, ?_, rfl, ?_, ?_⟩
  · intro h
    simp [editAdminZone, quizCommit, h]
  · intro h
    simp [editAdminZone, bannerCommit, h]
  · unfold applyLabel
    split <;> simp

/-- Witness for the amended C3: editing the committed quiz zone, typing
label "new" and failing quiz validation with the Scenario E form leaves
the action properties untouched, with only the label changed. -/
theorem editAdminZone_abort_no_action_write_witness :
    validateQuizData formEmptyQ ≠ none ∧
    editAdminZone zoneQuizAB (some ("new", .chooseQuiz (some (formEmptyQ, ratsOk)))) =
      applyLabel zoneQuizAB "new" :=
  ⟨by decide,
   (editAdminZone_abort_no_action_write zoneQuizAB "new" formEmptyQ ratsOk "" "").2.2.1
     (by decide)⟩

/-- Building the committed answers array preserves the count of non-blank
answers. -/
theorem length_buildQuizAnswers (f : QuizForm) (rats : List (Option String)) :
    (buildQuizAnswers f rats).length = (suppliedAnswers f).length := by
  simp [buildQuizAnswers]

/-- The quiz form has four answer slots, so at most four non-blank
answers. -/
theorem suppliedAnswers_length_le_four (f : QuizForm) :
    (suppliedAnswers f).length ≤ 4 := by
  have h := List.length_filter_le (fun a => decide (jsTrim a ≠ ""))
    [f.answer1, f.answer2, f.answer3, f.answer4]
  simpa [suppliedAnswers] using h

/-- A record with no quiz answer list vacuously satisfies the quiz
invariants. -/
theorem quizInv_of_no_answers (z : Zone) (h : z.quizAnswers = none) : quizInv z := by
  intro ans c hans _
  rw [h] at hans
  exact absurd hans (by simp)

/-- The label update touches no quiz property, so it preserves the quiz
invariants. -/
theorem quizInv_applyLabel (z : Zone) (lbl : String) (h : quizInv z) :
    quizInv (applyLabel z lbl) := by
  intro ans c hans hc
  have e1 : (applyLabel z lbl).quizAnswers = z.quizAnswers := by
    unfold applyLabel; split <;> rfl
  have e2 : (applyLabel z lbl).quizCorrectIndex = z.quizCorrectIndex := by
    unfold applyLabel; split <;> rfl
  rw [e1] at hans
  rw [e2] at hc
  exact h ans c hans hc

/-- A successful quiz commit establishes the quiz invariants: validation
guarantees at least 2 non-blank answers and an in-range correct index, and
the four form slots cap the answer count at 4. -/
theorem quizCommit_quizInv (f : QuizForm) (rats : List (Option String)) (z z2 : Zone)
    (h : quizCommit f rats z = some z2) : quizInv z2 := by
  unfold quizCommit at h
  split at h
  case isTrue hv =>
    simp only [Option.some.injEq] at h
    subst h
    intro ans c hans hc
    simp only at hans hc
    injection hans with hans
    injection hc with hc
    subst hans
    subst hc
    unfold validateQuizData at hv
    split_ifs at hv with h1 h2 h3
    have h4 := suppliedAnswers_length_le_four f
    have hlen := length_buildQuizAnswers f rats
    refine ⟨?_, ?_, ?_⟩ <;> omega
  case isFalse => exact absurd h (by simp)

/-- C5: every successfully committed editor result satisfies the quiz
invariants `0 ≤ quizCorrectIndex < quizAnswers.length` and
`2 ≤ quizAnswers.length ≤ 4` whenever it is a quiz zone (the lower bound
`0 ≤` is inherent in the natural-number index), and every editor
operation — commit, cancel, label edit, or switch of kind — preserves
them, so they continue to hold for as long as the zone remains a quiz
zone. -/
theorem quiz_invariants_committed (z : Zone) :
    (∀ f z2, setAction z f = some z2 → quizInv z2) ∧
    (∀ m, quizInv z → quizInv (editAdminZone z m)) := by
  constructor
  · intro f z2 h
    cases f with
    | nof =>
        simp only [setAction, Option.some.injEq] at h
        subst h
        exact quizInv_of_no_answers _ rfl
    | targetf idx =>
        simp only [setAction, Option.some.injEq] at h
        subst h
        exact quizInv_of_no_answers _ rfl
    | bannerf t p =>
        simp only [setAction, bannerCommit] at h
        split at h
        · simp only [Option.some.injEq] at h
          subst h
          exact quizInv_of_no_answers _ rfl
        · exact absurd h (by simp)
    | quizf form rats =>
        simp only [setAction] at h
        exact quizCommit_quizInv _ _ _ _ h
  · intro m hz
    cases m with
    | none => exact hz
    | some pr =>
      obtain ⟨lbl, choice⟩ := pr
      cases choice with
      | chooseNone => exact quizInv_of_no_answers _ rfl
      | chooseTarget idx => exact quizInv_of_no_answers _ rfl
      | chooseBanner c =>
        cases c with
        | none => exact quizInv_applyLabel z lbl hz
        | some tp =>
          obtain ⟨t, p⟩ := tp
          show quizInv ((bannerCommit t p (applyLabel z lbl)).getD (applyLabel z lbl))
          unfold bannerCommit
          split
          · exact quizInv_of_no_answers _ rfl
          · exact quizInv_applyLabel z lbl hz
      | chooseQuiz c =>
        cases c with
        | none => exact quizInv_applyLabel z lbl hz
        | some fr =>
          obtain ⟨form, rats⟩ := fr
          show quizInv ((quizCommit form rats (applyLabel z lbl)).getD (applyLabel z lbl))
          cases hq : quizCommit form rats (applyLabel z lbl) with
          | none =>
              simp only [Option.getD_none]
              exact quizInv_applyLabel z lbl hz
          | some z2 =>
              simp only [Option.getD_some]
              exact quizCommit_quizInv _ _ _ _ hq

/-- Witness for C5: committing the valid two-answer form onto an empty
record yields a zone satisfying the quiz invariants. -/
theorem quiz_invariants_committed_witness :
    setAction zoneEmpty (.quizf formOk ratsOk) = some zoneCommitted ∧
    quizInv zoneCommitted :=
  ⟨by decide,
   (quiz_invariants_committed zoneEmpty).1 (.quizf formOk ratsOk) zoneCommitted (by decide)⟩

/-- C6: with a captured in-range `selectedIndex`, a correct submission
shows the affirmative marker and no rationale regardless of
`showRationale`; an incorrect one shows the negative marker and either the
selected wrong answer's non-empty rationale verbatim (when `showRationale`
holds), or the generic fallback naming the correct answer's text. -/
theorem submitFeedback_characterization (answers : List Answer) (c : Nat) (sr : Bool)
    (s : Nat) (_hs : s < answers.length) (_hc : c < answers.length) :
    (s = c → submitFeedback answers c sr s =
      { icon := "✓", text := "Correct!", rationale := "" }) ∧
    (s ≠ c →
      (submitFeedback answers c sr s).icon = "✗" ∧
      (submitFeedback answers c sr s).text = "Incorrect" ∧
      (∀ r, sr = true → (answers.getD s ⟨"", none⟩).rationale = some r → r ≠ "" →
        (submitFeedback answers c sr s).rationale = r) ∧
      ((sr && strTruthy (answers.getD s ⟨"", none⟩).rationale) = false →
        (submitFeedback answers c sr s).rationale =
          "The correct answer is: " ++ (answers.getD c ⟨"", none⟩).text)) := by
  constructor
  · intro h; simp [submitFeedback, h]
  · intro hne
    refine ⟨?_, ?_, ?_, ?_⟩
    · unfold submitFeedback; rw [if_neg hne]; split <;> rfl
    · unfold submitFeedback; rw [if_neg hne]; split <;> rfl
    · intro r hsr hr hrne
      have ht : strTruthy (answers.getD s ⟨"", none⟩).rationale = true := by
        rw [hr]; simp [strTruthy, hrne]
      unfold submitFeedback
      rw [if_neg hne, hsr]
      simp only [Bool.true_and, ht, eq_self_iff_true, if_true]
      show ((answers.getD s ⟨"", none⟩).rationale).getD "" = r
      rw [hr]
      rfl
    · intro hb
      unfold submitFeedback
      rw [if_neg hne]
      simp only [hb, Bool.false_eq_true, if_false]

/-- Witness for C6, the spec's Scenarios A and B: on answers A (correct,
no rationale) and B (rationale "wrong") with `showRationale` on, selecting
B shows "wrong" verbatim, selecting A shows the affirmative feedback with
no rationale; with `showRationale` off, selecting B names the correct
answer. -/
theorem submitFeedback_characterization_witness :
    (submitFeedback ansAB 0 true 1).rationale = "wrong" ∧
    submitFeedback ansAB 0 true 0 = { icon := "✓", text := "Correct!", rationale := "" } ∧
    (submitFeedback ansAB 0 false 1).rationale = "The correct answer is: A" :=
  ⟨((submitFeedback_characterization ansAB 0 true 1 (by decide) (by decide)).2
      (by decide)).2.2.1 "wrong" rfl (by decide) (by decide),
   (submitFeedback_characterization ansAB 0 true 0 (by decide) (by decide)).1 rfl,
   ((submitFeedback_characterization ansAB 0 false 1 (by decide) (by decide)).2
      (by decide)).2.2.2 (by decide)⟩

/-- C8 exhibit: after submit the captured `selectedIndex` is indeed frozen
(the submit button is hidden, so it cannot be recaptured), but the choice
controls are NOT inert — the option-div click listeners stay attached (the
handler only disables the radio inputs and resets the cursor style, while
its programmatic `checked` write bypasses `disabled`), so a post-submit
click on another option still re-checks that radio and moves the selected
highlight, contradicting the claim and the plan's own "click handlers are
removed" note. -/
theorem answered_option_still_selects :
    (quizStep (quizStep startSession (.option 0)) .submit).answered = true ∧
    (quizStep (quizStep startSession (.option 0)) .submit).selectedIndex = some 0 ∧
    (quizStep (quizStep startSession (.option 0)) .submit).checked = some 0 ∧
    (quizStep (quizStep (quizStep startSession (.option 0)) .submit) (.option 1)).checked
      = some 1 ∧
    (quizStep (quizStep (quizStep startSession (.option 0)) .submit)
      (.option 1)).selectedIndex = some 0 ∧
    quizStep (quizStep (quizStep startSession (.option 0)) .submit) (.option 1) ≠
      quizStep (quizStep startSession (.option 0)) .submit := by
  decide

/-- C9: a view whose zones cell fails to parse or parses to a non-array
loads with an empty zone list, exactly as if the cell were blank, while
every other view of the row loads unchanged; `getLessonData` is total, so
no zone-cell content is fatal to the lesson load. -/
theorem getLessonData_malformed_recovery (pre post : List (String × String × ZonesCell))
    (d u : String) (zc : ZonesCell) (hzc : zc = .nonArray ∨ zc = .parseFail) :
    getLessonData (pre ++ (d, u, zc) :: post) =
      getLessonData pre ++
        (if jsTrim d ≠ "" ∧ jsTrim u ≠ "" then
          [{ description := d, imageUrl := u, zones := [] }] else []) ++
        getLessonData post := by
  rcases hzc with h | h <;> subst h <;>
    by_cases hcond : jsTrim d ≠ "" ∧ jsTrim u ≠ "" <;>
      simp [getLessonData, List.filterMap_append, List.filterMap_cons, cellZones, hcond]

/-- Witness for C9: a three-view row whose middle zones cell throws on
parse still loads all three views, the middle one with no zones. -/
theorem getLessonData_malformed_recovery_witness :
    getLessonData
        [("a", "u", .parsesTo [zoneTargetZero]), ("b", "v", .parseFail),
         ("c", "w", .parsesTo [])] =
      [{ description := "a", imageUrl := "u", zones := [zoneTargetZero] },
       { description := "b", imageUrl := "v", zones := [] },
       { description := "c", imageUrl := "w", zones := [] }] :=
  (getLessonData_malformed_recovery [("a", "u", .parsesTo [zoneTargetZero])]
    [("c", "w", .parsesTo [])] "b" "v" .parseFail (Or.inr rfl)).trans (by decide)

end Microscope
